import Mathlib

/-!
Verification development for the desktop-sitter face-tracking controller.

The embedded code lives in three Python modules:
  - src/core/servo.py    (class PanTilt: clamped pan/tilt angle state),
  - src/core/detector.py (find_faces: area/aspect post-filter + sort),
  - src/core/tracker.py  (class FaceTracker: dead-zone centering law,
    initial grid scan, and the run loop with its no-face timeout).

Modelling conventions: Python floats are modelled as exact rationals (ℚ);
pixel rectangles from the Haar cascade carry natural-number coordinates;
the camera/world is a function from the actuator pose to the list of raw
candidate rectangles the cascade would return at that pose; actuator
writes are recorded as an explicit event trace so that "no command is
issued" is a statement about the trace.  The field-of-view constants
THETA_H/THETA_V are transcendental reals in the source, so the derived
degrees-per-pixel factors are kept as abstract rational parameters.
-/

namespace DesktopSitter

/-! ### servo.py : PanTilt -/

/-- Configuration of a `PanTilt` head: the per-axis angle ranges passed to
`PanTilt.__init__` as `pan_range` and `tilt_range`. -/
structure ServoCfg where
  pan_min : ℚ
  pan_max : ℚ
  tilt_min : ℚ
  tilt_max : ℚ
deriving DecidableEq

/-- The default construction arguments: `pan_range=(30, 150)`,
`tilt_range=(70, 150)`. -/
def defaultServo : ServoCfg := ⟨30, 150, 70, 150⟩

/-- The mutable angle state of a `PanTilt` instance: fields
`_current_pan` and `_current_tilt`. -/
structure PanTiltState where
  pan : ℚ
  tilt : ℚ
deriving DecidableEq

/-- `PanTilt.__init__`: start centered,
`_current_pan = (pan_min + pan_max) / 2`, likewise for tilt. -/
def initPanTilt (c : ServoCfg) : PanTiltState :=
  ⟨(c.pan_min + c.pan_max) / 2, (c.tilt_min + c.tilt_max) / 2⟩

/-- `PanTilt.set_pan`: `self._current_pan = max(self._pan_min, min(self._pan_max, angle))`. -/
def set_pan (c : ServoCfg) (s : PanTiltState) (angle : ℚ) : PanTiltState :=
  { s with pan := max c.pan_min (min c.pan_max angle) }

/-- `PanTilt.set_tilt`: `self._current_tilt = max(self._tilt_min, min(self._tilt_max, angle))`. -/
def set_tilt (c : ServoCfg) (s : PanTiltState) (angle : ℚ) : PanTiltState :=
  { s with tilt := max c.tilt_min (min c.tilt_max angle) }

/-- A direct write to the pan/tilt head through one of the setters. -/
inductive ServoOp
  | setPanOp (angle : ℚ)
  | setTiltOp (angle : ℚ)
deriving DecidableEq

/-- Apply one setter call. -/
def applyOp (c : ServoCfg) (s : PanTiltState) : ServoOp → PanTiltState
  | ServoOp.setPanOp a => set_pan c s a
  | ServoOp.setTiltOp a => set_tilt c s a

/-- Apply a sequence of setter calls in order. -/
def applyOps (c : ServoCfg) (ops : List ServoOp) (s : PanTiltState) : PanTiltState :=
  ops.foldl (applyOp c) s

/-- The stored angles lie within the configured per-axis ranges. -/
def InRange (c : ServoCfg) (s : PanTiltState) : Prop :=
  c.pan_min ≤ s.pan ∧ s.pan ≤ c.pan_max ∧ c.tilt_min ≤ s.tilt ∧ s.tilt ≤ c.tilt_max

/-! ### detector.py : find_faces -/

/-- A candidate face rectangle `(x, y, w, h)` in pixel coordinates of the
image the detector ran on. -/
structure Rect where
  x : ℕ
  y : ℕ
  w : ℕ
  h : ℕ
deriving DecidableEq

/-- Pixel area `w * h` of a rectangle. -/
def Rect.area (r : Rect) : ℕ := r.w * r.h

/-- The post-detection part of `find_faces` in detector.py, applied to the
raw list the Haar cascade returned on a `frameH × frameW` grayscale image:
reject rectangles with `area < frame_area * min_area_ratio` or with aspect
ratio `w / h` outside `[1 - tol, 1 + tol]`, then sort the survivors
largest-area first (a stable sort, as Python's `list.sort`). -/
def find_faces (faces : List Rect) (frameH frameW : ℕ)
    (minAreaPct aspectTol : ℚ) : List Rect :=
  if faces = [] then []
  else
    let frame_area : ℚ := (frameH : ℚ) * (frameW : ℚ)
    let min_area : ℚ := frame_area * minAreaPct
    let min_ar : ℚ := 1 - aspectTol
    let max_ar : ℚ := 1 + aspectTol
    let filtered := faces.filter fun r =>
      let ar : ℚ := if r.h = 0 then 0 else (r.w : ℚ) / (r.h : ℚ)
      !decide ((r.area : ℚ) < min_area) && (decide (min_ar ≤ ar) && decide (ar ≤ max_ar))
    filtered.mergeSort fun a b => decide (b.area ≤ a.area)

/-! ### tracker.py : constants -/

/-- `SCALE = 0.5` — the detector runs on a half-resolution copy. -/
def SCALE : ℚ := 1/2

/-- `ALPHA_PAN = 0.35`. -/
def ALPHA_PAN : ℚ := 35/100

/-- `ALPHA_TILT = 0.25`. -/
def ALPHA_TILT : ℚ := 25/100

/-- `MAX_PAN_DELTA = 1.0` degrees per frame. -/
def MAX_PAN_DELTA : ℚ := 1

/-- `MAX_TILT_DELTA = 0.5` degrees per frame. -/
def MAX_TILT_DELTA : ℚ := 1/2

/-- `MIN_AREA_RATIO = 0.1` in tracker.py. -/
def MIN_AREA_FRAC : ℚ := 1/10

/-- `ASPECT_TOL = 0.25`. -/
def ASPECT_TOL : ℚ := 1/4

/-- `INIT_PAN_STEP = 15`. -/
def INIT_PAN_STEP : ℕ := 15

/-- `INIT_TILT_STEP = 10`. -/
def INIT_TILT_STEP : ℕ := 10

/-- `TIMEOUT_NO_FACE = 30.0` seconds without a face before reinitializing. -/
def TIMEOUT_NO_FACE : ℚ := 30

/-! ### tracker.py : FaceTracker state -/

/-- `class Mode: INIT, TRACK = range(2)` — the tracker's two modes. -/
inductive Mode
  | INIT
  | TRACK
deriving DecidableEq

/-- Fixed per-tracker geometry from `FaceTracker.__init__`: the frame
resolution `res = (w, h)` and the degrees-per-pixel factors
`deg_px_x = THETA_H / w`, `deg_px_y = THETA_V / h` (kept abstract here
because THETA_H/THETA_V are transcendental). -/
structure TrackerCfg where
  w : ℕ
  h : ℕ
  deg_px_x : ℚ
  deg_px_y : ℚ
deriving DecidableEq

/-- Mutable tracker state: the owned `PanTilt` angles, the dynamic
dead-zone, the mode label, and `last_face_time`. -/
structure TrackerState where
  pt : PanTiltState
  dead_x : ℚ
  dead_y : ℚ
  mode : Mode
  last_face_time : ℚ
deriving DecidableEq

/-- Observable actuator-facing events: a `set_pan` call, a `set_tilt`
call, or one detection pass on a captured frame. -/
inductive Ev
  | cmdPan (angle : ℚ)
  | cmdTilt (angle : ℚ)
  | det
deriving DecidableEq

/-! ### tracker.py : FaceTracker._centre -/

/-- `goal_pan = self.pt._current_pan - dx * self.deg_px_x`. -/
def goal_pan (cfg : TrackerCfg) (cur dx : ℚ) : ℚ := cur - dx * cfg.deg_px_x

/-- `goal_tilt = self.pt._current_tilt - dy * self.deg_px_y`. -/
def goal_tilt (cfg : TrackerCfg) (cur dy : ℚ) : ℚ := cur - dy * cfg.deg_px_y

/-- `sp = cur + ALPHA_PAN * (goal_pan - cur)` — exponential smoothing of
the current pan angle toward the goal. -/
def smooth_pan (cfg : TrackerCfg) (cur dx : ℚ) : ℚ :=
  cur + ALPHA_PAN * (goal_pan cfg cur dx - cur)

/-- `st = cur + ALPHA_TILT * (goal_tilt - cur)`. -/
def smooth_tilt (cfg : TrackerCfg) (cur dy : ℚ) : ℚ :=
  cur + ALPHA_TILT * (goal_tilt cfg cur dy - cur)

/-- `max(cur - maxd, min(cur + maxd, v))` — the per-frame slew-rate clamp
used for `tp` and `tt` in `_centre`. -/
def clamp_delta (cur maxd v : ℚ) : ℚ := max (cur - maxd) (min (cur + maxd) v)

/-- `FaceTracker._centre(cx, cy)`: compute the pixel offsets from frame
center; inside the dead zone return without touching the servos,
otherwise smooth toward the goal angle, clamp the per-frame delta, and
write both axes through `set_pan`/`set_tilt`.  Returns the new tracker
state together with the trace of actuator commands issued (the
`time.sleep(SETTLE_EXTRA)` timing side effect is not modelled). -/
def centre (cfg : TrackerCfg) (srv : ServoCfg) (s : TrackerState) (cx cy : ℚ) :
    TrackerState × List Ev :=
  let dx := cx - (cfg.w : ℚ) / 2
  let dy := cy - (cfg.h : ℚ) / 2
  if |dx| < s.dead_x ∧ |dy| < s.dead_y then (s, [])
  else
    let sp := smooth_pan cfg s.pt.pan dx
    let st := smooth_tilt cfg s.pt.tilt dy
    let tp := clamp_delta s.pt.pan MAX_PAN_DELTA sp
    let tt := clamp_delta s.pt.tilt MAX_TILT_DELTA st
    ({ s with pt := set_tilt srv (set_pan srv s.pt tp) tt },
     [Ev.cmdPan tp, Ev.cmdTilt tt])

/-! ### tracker.py : FaceTracker._initial_scan and run loop -/

/-- Python `range(start, stop, step)` for a positive `step`, over ℤ. -/
def rangeUp (start stop : ℤ) (step : ℕ) : List ℤ :=
  (List.range (((stop - start).toNat + step - 1) / step)).map fun i => start + (step : ℤ) * i

/-- Python `range(start, stop, -step)` for a positive `step`, over ℤ. -/
def rangeDown (start stop : ℤ) (step : ℕ) : List ℤ :=
  (List.range (((start - stop).toNat + step - 1) / step)).map fun i => start - (step : ℤ) * i

/-- The tilt values visited by `_initial_scan`:
`range(150, 99, -INIT_TILT_STEP)`. -/
def scanTilts : List ℤ := rangeDown 150 99 INIT_TILT_STEP

/-- The pan values visited for each tilt:
`range(30, 151, INIT_PAN_STEP)`. -/
def scanPans : List ℤ := rangeUp 30 151 INIT_PAN_STEP

/-- All scan waypoints `(pan, tilt)` in visit order. -/
def waypointsFlat : List (ℤ × ℤ) :=
  scanTilts.flatMap fun t => scanPans.map fun p => (p, t)

/-- Width of the half-resolution detector image:
`cv2.resize(gray, (0,0), fx=SCALE, fy=SCALE)` on a `w`-pixel-wide frame. -/
def smallW (cfg : TrackerCfg) : ℕ := (⌊(cfg.w : ℚ) * SCALE⌋).toNat

/-- Height of the half-resolution detector image. -/
def smallH (cfg : TrackerCfg) : ℕ := (⌊(cfg.h : ℚ) * SCALE⌋).toNat

/-- The camera/world abstraction: the list of raw candidate rectangles
the Haar cascade returns on the half-resolution frame captured while the
actuator points at a given (pan, tilt) pose. -/
def World : Type := ℚ × ℚ → List Rect

/-- The filtered, largest-first face list the tracker sees at a pose:
`find_faces(small, min_area_ratio=MIN_AREA_RATIO, aspect_ratio_tol=ASPECT_TOL)`. -/
def facesAt (cfg : TrackerCfg) (world : World) (p : PanTiltState) : List Rect :=
  find_faces (world (p.pan, p.tilt)) (smallH cfg) (smallW cfg) MIN_AREA_FRAC ASPECT_TOL

/-- `int(v / SCALE)` for a nonnegative pixel count: rescale a
half-resolution measure back to full-frame pixels. -/
def rescale (v : ℕ) : ℕ := (⌊(v : ℚ) / SCALE⌋).toNat

/-- The scan's best-so-far accumulator: variables `best`, `best_ang`,
`best_wh` of `_initial_scan`. -/
structure ScanAcc where
  best : ℕ
  best_ang : Option (ℤ × ℤ)
  best_wh : ℕ × ℕ
deriving DecidableEq

/-- Full loop state of `_initial_scan`: the servo pose, the best-so-far
accumulator, and the trace of actuator commands and detections. -/
structure ScanSt where
  pt : PanTiltState
  acc : ScanAcc
  trace : List Ev
deriving DecidableEq

/-- Body of the inner pan loop of `_initial_scan`: `self.pt.set_pan(pan)`,
capture a frame, run detection, and if the largest face at this waypoint
strictly beats the best-so-far area, record its area, the waypoint, and
the rescaled `(w, h)`. -/
def scanPanStep (cfg : TrackerCfg) (srv : ServoCfg) (world : World)
    (tilt : ℤ) (st : ScanSt) (pan : ℤ) : ScanSt :=
  let pt := set_pan srv st.pt (pan : ℚ)
  let faces := facesAt cfg world pt
  let acc :=
    match faces.head? with
    | none => st.acc
    | some r =>
        if r.area > st.acc.best then
          { best := r.area, best_ang := some (pan, tilt),
            best_wh := (rescale r.w, rescale r.h) }
        else st.acc
  { pt := pt, acc := acc, trace := st.trace ++ [Ev.cmdPan (pan : ℚ), Ev.det] }

/-- Body of the outer tilt loop of `_initial_scan`:
`self.pt.set_tilt(tilt)` then the inner pan loop. -/
def scanTiltStep (cfg : TrackerCfg) (srv : ServoCfg) (world : World)
    (st : ScanSt) (tilt : ℤ) : ScanSt :=
  scanPans.foldl (scanPanStep cfg srv world tilt)
    { pt := set_tilt srv st.pt (tilt : ℚ), acc := st.acc,
      trace := st.trace ++ [Ev.cmdTilt (tilt : ℚ)] }

/-- The double loop of `_initial_scan`, started from pose `pt0` with
`best = 0`, `best_ang = None`, `best_wh = (0, 0)`. -/
def scanGrid (cfg : TrackerCfg) (srv : ServoCfg) (world : World)
    (pt0 : PanTiltState) : ScanSt :=
  scanTilts.foldl (scanTiltStep cfg srv world)
    { pt := pt0, acc := ⟨0, none, (0, 0)⟩, trace := [] }

/-- `FaceTracker._initial_scan` at time `now`: run the grid scan; if a
best waypoint was found, command the actuator to it and set the
dead-zone to `best_wh // 2` per axis; in all cases set
`mode = Mode.TRACK` and refresh `last_face_time`. -/
def initial_scan (cfg : TrackerCfg) (srv : ServoCfg) (world : World)
    (s : TrackerState) (now : ℚ) : TrackerState × List Ev :=
  let st := scanGrid cfg srv world s.pt
  match st.acc.best_ang with
  | some ang =>
      ({ s with pt := set_tilt srv (set_pan srv st.pt (ang.1 : ℚ)) (ang.2 : ℚ), dead_x := ((st.acc.best_wh.1 / 2 : ℕ) : ℚ), dead_y := ((st.acc.best_wh.2 / 2 : ℕ) : ℚ), mode := Mode.TRACK, last_face_time := now },
        st.trace ++ [Ev.cmdPan (ang.1 : ℚ), Ev.cmdTilt (ang.2 : ℚ)])
  | none =>
      ({ s with pt := st.pt, mode := Mode.TRACK, last_face_time := now }, st.trace)

/-- One iteration of the `FaceTracker.run` main loop at time `now`
(detection handling and the no-face timeout path; GUI drawing, FPS
bookkeeping and the frame callback are display-only and not modelled):
if a face is accepted, rescale its rectangle to full-frame pixels,
centre on it, and refresh `last_face_time`; with no face, re-run the
initial scan once `now - last_face_time > TIMEOUT_NO_FACE`. -/
def runIter (cfg : TrackerCfg) (srv : ServoCfg) (world : World)
    (s : TrackerState) (now : ℚ) : TrackerState × List Ev :=
  let faces := facesAt cfg world s.pt
  match faces.head? with
  | some r =>
      let rx := rescale r.x
      let ry := rescale r.y
      let rw := rescale r.w
      let rh := rescale r.h
      let cx : ℚ := (rx : ℚ) + (rw : ℚ) / 2
      let cy : ℚ := (ry : ℚ) + (rh : ℚ) / 2
      let res := centre cfg srv s cx cy
      ({ res.1 with last_face_time := now }, res.2)
  | none =>
      if now - s.last_face_time > TIMEOUT_NO_FACE then
        initial_scan cfg srv world s now
      else (s, [])

/-- A world with no faces anywhere. -/
def worldEmpty : World := fun _ => []

/-- A world with a single 50×50 candidate face, visible only when the
camera points exactly at pan 30, tilt 150. -/
def worldOne : World := fun q => if q = ((30 : ℚ), (150 : ℚ)) then [⟨0, 0, 50, 50⟩] else []

/-- The concrete tracker geometry of the source: `res = (320, 240)`
(the degrees-per-pixel factors are arbitrary rationals here). -/
def cfgW : TrackerCfg := ⟨320, 240, 1/10, 1/10⟩

/-- The pose the actuator holds when the scan detects at waypoint
`(pan, tilt)`: both axes freshly clamped to the servo ranges. -/
def wpPose (srv : ServoCfg) (wp : ℤ × ℤ) : PanTiltState :=
  ⟨max srv.pan_min (min srv.pan_max (wp.1 : ℚ)),
    max srv.tilt_min (min srv.tilt_max (wp.2 : ℚ))⟩

/-- Area of the largest accepted face at a waypoint (0 when none). -/
def scanArea (cfg : TrackerCfg) (srv : ServoCfg) (world : World) (wp : ℤ × ℤ) : ℕ :=
  match (facesAt cfg world (wpPose srv wp)).head? with
  | none => 0
  | some r => r.area

/-- The best-so-far update of `_initial_scan`, expressed per waypoint. -/
def accStep (cfg : TrackerCfg) (srv : ServoCfg) (world : World)
    (acc : ScanAcc) (wp : ℤ × ℤ) : ScanAcc :=
  match (facesAt cfg world (wpPose srv wp)).head? with
  | none => acc
  | some r =>
      if r.area > acc.best then
        { best := r.area, best_ang := some wp, best_wh := (rescale r.w, rescale r.h) }
      else acc

/-- Invariant describing the scan accumulator after processing the
waypoint list `l` from the initial accumulator: the recorded best area
dominates every processed waypoint's largest-face area; and either
nothing was recorded and every processed waypoint had area 0, or `l`
splits around the first waypoint attaining the (positive) maximum, whose
head face is the one recorded. -/
def ScanInv (cfg : TrackerCfg) (srv : ServoCfg) (world : World)
    (l : List (ℤ × ℤ)) (acc : ScanAcc) : Prop :=
  (∀ wp ∈ l, scanArea cfg srv world wp ≤ acc.best) ∧
    ((acc = ⟨0, none, (0, 0)⟩ ∧ ∀ wp ∈ l, scanArea cfg srv world wp = 0) ∨
      ∃ l₁ wp₀ l₂ r, l = l₁ ++ wp₀ :: l₂ ∧
        (∀ wp ∈ l₁, scanArea cfg srv world wp < acc.best) ∧
        (facesAt cfg world (wpPose srv wp₀)).head? = some r ∧
        r.area = acc.best ∧ 0 < acc.best ∧
        acc.best_ang = some wp₀ ∧ acc.best_wh = (rescale r.w, rescale r.h))

/-! ### Helper lemmas about clamping -/

theorem clamp_mem_of_le {a b x : ℚ} (hab : a ≤ b) :
    a ≤ max a (min b x) ∧ max a (min b x) ≤ b := by
  constructor
  · exact le_max_left _ _
  · exact max_le hab (min_le_left _ _)

theorem abs_clamp_sub_le {a b c x : ℚ} (hac : a ≤ c) (hcb : c ≤ b) :
    |max a (min b x) - c| ≤ |x - c| := by
  have hab : a ≤ b := hac.trans hcb
  rcases le_total x a with hxa | hax
  · rw [min_eq_right (hxa.trans hab), max_eq_left hxa]
    rw [abs_of_nonpos (by linarith), abs_of_nonpos (by linarith)]
    linarith
  · rcases le_total x b with hxb | hbx
    · rw [min_eq_right hxb, max_eq_right hax]
    · rw [min_eq_left hbx, max_eq_right hab]
      rw [abs_of_nonneg (by linarith), abs_of_nonneg (by linarith)]
      linarith

theorem abs_clamp_delta_sub_le {cur maxd v : ℚ} (h : 0 ≤ maxd) :
    |clamp_delta cur maxd v - cur| ≤ maxd := by
  unfold clamp_delta
  have h1 : cur - maxd ≤ cur + maxd := by linarith
  rcases clamp_mem_of_le (x := v) h1 with ⟨hlo, hhi⟩
  rw [abs_le]
  constructor <;> linarith

/-! ### Helper lemmas about the detector -/

theorem find_faces_nil (fh fw : ℕ) (p t : ℚ) : find_faces [] fh fw p t = [] := rfl

theorem head_max_of_mergeSortDesc (l : List Rect) (r : Rect)
    (hr : (l.mergeSort fun a b => decide (b.area ≤ a.area)).head? = some r) :
    ∀ r' ∈ l.mergeSort fun a b => decide (b.area ≤ a.area), r'.area ≤ r.area := by
  have hpw : List.Pairwise (fun a b => decide (b.area ≤ a.area) = true)
      (l.mergeSort fun a b => decide (b.area ≤ a.area)) :=
    List.sorted_mergeSort
      (fun a b c h1 h2 => by
        simp only [decide_eq_true_eq] at h1 h2 ⊢
        exact le_trans h2 h1)
      (fun a b => by
        simp only [Bool.or_eq_true, decide_eq_true_eq]
        exact Nat.le_total _ _)
      l
  rcases hms : l.mergeSort fun a b => decide (b.area ≤ a.area) with _ | ⟨a, rest⟩
  · rw [hms] at hr
    exact absurd hr (by simp)
  · rw [hms] at hr hpw
    have har : a = r := by simpa using hr
    subst har
    rw [List.pairwise_cons] at hpw
    intro r' hr'
    rcases List.mem_cons.mp hr' with h | h
    · rw [h]
    · have := hpw.1 r' h
      simpa using this

theorem find_faces_head?_max (fs : List Rect) (fh fw : ℕ) (p t : ℚ) (r : Rect)
    (hr : (find_faces fs fh fw p t).head? = some r) :
    ∀ r' ∈ find_faces fs fh fw p t, r'.area ≤ r.area := by
  by_cases hfs : fs = []
  · rw [hfs, find_faces_nil] at hr
    exact absurd hr (by simp)
  · unfold find_faces at hr ⊢
    rw [if_neg hfs] at hr ⊢
    exact head_max_of_mergeSortDesc _ r hr

theorem mem_find_faces (fs : List Rect) (fh fw : ℕ) (p t : ℚ) (r : Rect)
    (hr : r ∈ find_faces fs fh fw p t) :
    r ∈ fs ∧ ¬((r.area : ℚ) < (fh : ℚ) * (fw : ℚ) * p) := by
  by_cases hfs : fs = []
  · rw [hfs, find_faces_nil] at hr
    exact absurd hr (by simp)
  · unfold find_faces at hr
    rw [if_neg hfs] at hr
    dsimp only at hr
    rw [(List.mergeSort_perm _ _).mem_iff, List.mem_filter] at hr
    refine ⟨hr.1, ?_⟩
    have hcond := hr.2
    simp only [Bool.and_eq_true, Bool.not_eq_true', decide_eq_false_iff_not] at hcond
    exact hcond.1

theorem rescale_eq (v : ℕ) : rescale v = 2 * v := by
  unfold rescale SCALE
  have h : (v : ℚ) / (1 / 2) = ((2 * v : ℕ) : ℚ) := by push_cast; ring
  rw [h, Int.floor_natCast]
  omega

theorem facesAt_of_world_nil (cfg : TrackerCfg) (world : World)
    (h : ∀ q, world q = []) (p : PanTiltState) : facesAt cfg world p = [] := by
  unfold facesAt
  rw [h]
  exact find_faces_nil _ _ _ _

/-! ### Helper lemmas: flattening the scan's nested loops -/

theorem facesAt_set_pan (cfg : TrackerCfg) (srv : ServoCfg) (world : World)
    (q : PanTiltState) (tilt pan : ℤ)
    (h : q.tilt = max srv.tilt_min (min srv.tilt_max (tilt : ℚ))) :
    facesAt cfg world (set_pan srv q (pan : ℚ)) =
      facesAt cfg world (wpPose srv (pan, tilt)) := by
  unfold facesAt set_pan wpPose
  dsimp only
  rw [h]

theorem scanPanStep_acc (cfg : TrackerCfg) (srv : ServoCfg) (world : World)
    (tilt : ℤ) (st : ScanSt) (pan : ℤ)
    (h : st.pt.tilt = max srv.tilt_min (min srv.tilt_max (tilt : ℚ))) :
    (scanPanStep cfg srv world tilt st pan).acc =
      accStep cfg srv world st.acc (pan, tilt) := by
  unfold scanPanStep accStep
  dsimp only
  rw [facesAt_set_pan cfg srv world st.pt tilt pan h]

theorem panFold_acc (cfg : TrackerCfg) (srv : ServoCfg) (world : World)
    (tilt : ℤ) (ps : List ℤ) :
    ∀ st : ScanSt, st.pt.tilt = max srv.tilt_min (min srv.tilt_max (tilt : ℚ)) →
      (ps.foldl (scanPanStep cfg srv world tilt) st).acc =
          (ps.map fun p => (p, tilt)).foldl (accStep cfg srv world) st.acc ∧
        (ps.foldl (scanPanStep cfg srv world tilt) st).pt.tilt = st.pt.tilt := by
  induction ps with
  | nil => exact fun st _ => ⟨rfl, rfl⟩
  | cons p ps ih =>
      intro st h
      have htilt : (scanPanStep cfg srv world tilt st p).pt.tilt = st.pt.tilt := rfl
      have hacc := scanPanStep_acc cfg srv world tilt st p h
      obtain ⟨ha, hb⟩ := ih (scanPanStep cfg srv world tilt st p) (htilt.trans h)
      simp only [List.foldl_cons, List.map_cons]
      exact ⟨by rw [ha, hacc], by rw [hb, htilt]⟩

theorem scanTiltStep_acc (cfg : TrackerCfg) (srv : ServoCfg) (world : World)
    (st : ScanSt) (tilt : ℤ) :
    (scanTiltStep cfg srv world st tilt).acc =
      (scanPans.map fun p => (p, tilt)).foldl (accStep cfg srv world) st.acc := by
  unfold scanTiltStep
  exact (panFold_acc cfg srv world tilt scanPans _ rfl).1

theorem tiltFold_acc (cfg : TrackerCfg) (srv : ServoCfg) (world : World)
    (ts : List ℤ) :
    ∀ st : ScanSt, (ts.foldl (scanTiltStep cfg srv world) st).acc =
      (ts.flatMap fun t => scanPans.map fun p => (p, t)).foldl
        (accStep cfg srv world) st.acc := by
  induction ts with
  | nil => exact fun _ => rfl
  | cons t ts ih =>
      intro st
      simp only [List.foldl_cons, List.flatMap_cons, List.foldl_append]
      rw [ih, scanTiltStep_acc]

theorem scanGrid_acc (cfg : TrackerCfg) (srv : ServoCfg) (world : World)
    (pt0 : PanTiltState) :
    (scanGrid cfg srv world pt0).acc =
      waypointsFlat.foldl (accStep cfg srv world) ⟨0, none, (0, 0)⟩ := by
  unfold scanGrid waypointsFlat
  exact tiltFold_acc cfg srv world scanTilts _

theorem panFold_trace (cfg : TrackerCfg) (srv : ServoCfg) (world : World)
    (tilt : ℤ) (ps : List ℤ) :
    ∀ st : ScanSt, (ps.foldl (scanPanStep cfg srv world tilt) st).trace =
      st.trace ++ ps.flatMap fun p => [Ev.cmdPan (p : ℚ), Ev.det] := by
  induction ps with
  | nil => intro st; simp
  | cons p ps ih =>
      intro st
      simp only [List.foldl_cons, List.flatMap_cons]
      rw [ih]
      have hstep : (scanPanStep cfg srv world tilt st p).trace =
          st.trace ++ [Ev.cmdPan (p : ℚ), Ev.det] := rfl
      rw [hstep, List.append_assoc]

theorem tiltFold_trace (cfg : TrackerCfg) (srv : ServoCfg) (world : World)
    (ts : List ℤ) :
    ∀ st : ScanSt, (ts.foldl (scanTiltStep cfg srv world) st).trace =
      st.trace ++ ts.flatMap fun t =>
        Ev.cmdTilt (t : ℚ) :: scanPans.flatMap fun p => [Ev.cmdPan (p : ℚ), Ev.det] := by
  induction ts with
  | nil => intro st; simp
  | cons t ts ih =>
      intro st
      simp only [List.foldl_cons, List.flatMap_cons]
      rw [ih]
      unfold scanTiltStep
      rw [panFold_trace]
      dsimp only
      simp [List.append_assoc]

theorem scanGrid_trace (cfg : TrackerCfg) (srv : ServoCfg) (world : World)
    (pt0 : PanTiltState) :
    (scanGrid cfg srv world pt0).trace =
      scanTilts.flatMap fun t =>
        Ev.cmdTilt (t : ℚ) :: scanPans.flatMap fun p => [Ev.cmdPan (p : ℚ), Ev.det] := by
  unfold scanGrid
  rw [tiltFold_trace]
  rfl

/-! ### Helper lemmas: the argmax invariant of the scan accumulator -/

theorem scanInv_nil (cfg : TrackerCfg) (srv : ServoCfg) (world : World) :
    ScanInv cfg srv world [] ⟨0, none, (0, 0)⟩ :=
  ⟨by simp, Or.inl ⟨rfl, by simp⟩⟩

theorem scanInv_append (cfg : TrackerCfg) (srv : ServoCfg) (world : World)
    (l : List (ℤ × ℤ)) (acc : ScanAcc) (wp : ℤ × ℤ)
    (h : ScanInv cfg srv world l acc) :
    ScanInv cfg srv world (l ++ [wp]) (accStep cfg srv world acc wp) := by
  obtain ⟨hmax, hcase⟩ := h
  rcases hfw : (facesAt cfg world (wpPose srv wp)).head? with _ | r
  · have hz : scanArea cfg srv world wp = 0 := by unfold scanArea; rw [hfw]
    have hstep : accStep cfg srv world acc wp = acc := by
      simp only [accStep, hfw]
    rw [hstep]
    constructor
    · intro w hw
      rcases List.mem_append.mp hw with hl | hr2
      · exact hmax w hl
      · rw [List.mem_singleton.mp hr2, hz]
        exact Nat.zero_le _
    · rcases hcase with ⟨hacc, hall⟩ | ⟨l₁, wp₀, l₂, r, heq, hlt, hhd, harea, hpos, hang, hwh⟩
      · left
        refine ⟨hacc, fun w hw => ?_⟩
        rcases List.mem_append.mp hw with hl | hr2
        · exact hall w hl
        · rw [List.mem_singleton.mp hr2]
          exact hz
      · right
        exact ⟨l₁, wp₀, l₂ ++ [wp], r, by rw [heq]; simp, hlt, hhd, harea, hpos, hang, hwh⟩
  · have hsa : scanArea cfg srv world wp = r.area := by unfold scanArea; rw [hfw]
    by_cases hgt : r.area > acc.best
    · have hstep : accStep cfg srv world acc wp =
          ⟨r.area, some wp, (rescale r.w, rescale r.h)⟩ := by
        simp only [accStep, hfw]
        rw [if_pos hgt]
      rw [hstep]
      constructor
      · intro w hw
        rcases List.mem_append.mp hw with hl | hr2
        · exact le_trans (hmax w hl) (le_of_lt hgt)
        · rw [List.mem_singleton.mp hr2, hsa]
      · right
        refine ⟨l, wp, [], r, by simp, ?_, hfw, rfl, ?_, rfl, rfl⟩
        · intro w hw
          exact lt_of_le_of_lt (hmax w hw) hgt
        · exact Nat.lt_of_le_of_lt (Nat.zero_le _) hgt
    · have hle : r.area ≤ acc.best := Nat.le_of_not_lt hgt
      have hstep : accStep cfg srv world acc wp = acc := by
        simp only [accStep, hfw]
        rw [if_neg hgt]
      rw [hstep]
      constructor
      · intro w hw
        rcases List.mem_append.mp hw with hl | hr2
        · exact hmax w hl
        · rw [List.mem_singleton.mp hr2, hsa]
          exact hle
      · rcases hcase with ⟨hacc, hall⟩ | ⟨l₁, wp₀, l₂, r', heq, hlt, hhd, harea, hpos, hang, hwh⟩
        · left
          have hb0 : acc.best = 0 := by rw [hacc]
          refine ⟨hacc, fun w hw => ?_⟩
          rcases List.mem_append.mp hw with hl | hr2
          · exact hall w hl
          · rw [List.mem_singleton.mp hr2, hsa]
            omega
        · right
          exact ⟨l₁, wp₀, l₂ ++ [wp], r', by rw [heq]; simp, hlt, hhd, harea, hpos, hang, hwh⟩

theorem scanInv_foldl (cfg : TrackerCfg) (srv : ServoCfg) (world : World)
    (l : List (ℤ × ℤ)) :
    ScanInv cfg srv world l (l.foldl (accStep cfg srv world) ⟨0, none, (0, 0)⟩) := by
  induction l using List.reverseRecOn with
  | nil => exact scanInv_nil cfg srv world
  | append_singleton l wp ih =>
      rw [List.foldl_append]
      simp only [List.foldl_cons, List.foldl_nil]
      exact scanInv_append cfg srv world l _ wp ih

/-! ### Helper lemmas: the two exit branches of the initial scan -/

theorem initial_scan_found (cfg : TrackerCfg) (srv : ServoCfg) (world : World)
    (s : TrackerState) (now : ℚ) (wp₀ : ℤ × ℤ)
    (hang : (scanGrid cfg srv world s.pt).acc.best_ang = some wp₀) :
    initial_scan cfg srv world s now =
      ({ s with pt := set_tilt srv (set_pan srv (scanGrid cfg srv world s.pt).pt (wp₀.1 : ℚ)) (wp₀.2 : ℚ), dead_x := (((scanGrid cfg srv world s.pt).acc.best_wh.1 / 2 : ℕ) : ℚ), dead_y := (((scanGrid cfg srv world s.pt).acc.best_wh.2 / 2 : ℕ) : ℚ), mode := Mode.TRACK, last_face_time := now },
        (scanGrid cfg srv world s.pt).trace ++ [Ev.cmdPan (wp₀.1 : ℚ), Ev.cmdTilt (wp₀.2 : ℚ)]) := by
  unfold initial_scan
  dsimp only
  rw [hang]

theorem initial_scan_none (cfg : TrackerCfg) (srv : ServoCfg) (world : World)
    (s : TrackerState) (now : ℚ)
    (hang : (scanGrid cfg srv world s.pt).acc.best_ang = none) :
    initial_scan cfg srv world s now =
      ({ s with pt := (scanGrid cfg srv world s.pt).pt, mode := Mode.TRACK, last_face_time := now },
        (scanGrid cfg srv world s.pt).trace) := by
  unfold initial_scan
  dsimp only
  rw [hang]

/-- Both exit branches of `_initial_scan` set `mode = TRACK` and refresh
`last_face_time`. -/
theorem initial_scan_always_track (cfg : TrackerCfg) (srv : ServoCfg)
    (world : World) (s : TrackerState) (now : ℚ) :
    (initial_scan cfg srv world s now).1.mode = Mode.TRACK ∧
      (initial_scan cfg srv world s now).1.last_face_time = now := by
  rcases hang : (scanGrid cfg srv world s.pt).acc.best_ang with _ | wp₀
  · rw [initial_scan_none cfg srv world s now hang]
    exact ⟨rfl, rfl⟩
  · rw [initial_scan_found cfg srv world s now wp₀ hang]
    exact ⟨rfl, rfl⟩

/-- The global characterisation of a successful initial scan: the
accumulator records the first waypoint (in scan order) whose largest
detected face attains the maximal area over all waypoints, the actuator
is commanded there, and the dead-zone is set from that face's rescaled
size. -/
theorem scan_found_spec (cfg : TrackerCfg) (srv : ServoCfg) (world : World)
    (s : TrackerState) (now : ℚ)
    (hne : ∃ wp ∈ waypointsFlat, scanArea cfg srv world wp ≠ 0) :
    ∃ l₁ wp₀ l₂ r,
      waypointsFlat = l₁ ++ wp₀ :: l₂ ∧
      (facesAt cfg world (wpPose srv wp₀)).head? = some r ∧
      0 < r.area ∧
      (∀ wp ∈ waypointsFlat, scanArea cfg srv world wp ≤ r.area) ∧
      (∀ wp ∈ l₁, scanArea cfg srv world wp < r.area) ∧
      (initial_scan cfg srv world s now).1.pt = wpPose srv wp₀ ∧
      (initial_scan cfg srv world s now).1.dead_x = ((rescale r.w / 2 : ℕ) : ℚ) ∧
      (initial_scan cfg srv world s now).1.dead_y = ((rescale r.h / 2 : ℕ) : ℚ) := by
  have hinv := scanInv_foldl cfg srv world waypointsFlat
  rw [← scanGrid_acc cfg srv world s.pt] at hinv
  obtain ⟨hmax, hcase⟩ := hinv
  rcases hcase with ⟨hacc, hall⟩ | ⟨l₁, wp₀, l₂, r, heq, hlt, hhd, harea, hpos, hang, hwh⟩
  · obtain ⟨wp, hwp, hz⟩ := hne
    exact absurd (hall wp hwp) hz
  · rw [initial_scan_found cfg srv world s now wp₀ hang]
    refine ⟨l₁, wp₀, l₂, r, heq, hhd, ?_, ?_, ?_, rfl, ?_, ?_⟩
    · rw [harea]
      exact hpos
    · intro wp hwp
      rw [harea]
      exact hmax wp hwp
    · intro wp hwp
      rw [harea]
      exact hlt wp hwp
    · rw [hwh]
    · rw [hwh]

/-! ### Helper lemmas: concrete grid and configuration facts -/

/-- Every grid waypoint lies inside the default servo ranges, so the
pose held while detecting there is exactly the waypoint itself. -/
theorem waypointsFlat_pose :
    ∀ wp ∈ waypointsFlat,
      wpPose defaultServo wp = ⟨(wp.1 : ℚ), (wp.2 : ℚ)⟩ := by
  decide

theorem smallW_cfgW : smallW cfgW = 160 := by
  unfold smallW cfgW SCALE
  dsimp only
  have h : ((320 : ℕ) : ℚ) * (1 / 2) = ((160 : ℕ) : ℚ) := by norm_num
  rw [h, Int.floor_natCast]
  omega

theorem smallH_cfgW : smallH cfgW = 120 := by
  unfold smallH cfgW SCALE
  dsimp only
  have h : ((240 : ℕ) : ℚ) * (1 / 2) = ((120 : ℕ) : ℚ) := by norm_num
  rw [h, Int.floor_natCast]
  omega

/-- With the source's 320×240 resolution, any face accepted by the
detector has area at least `120 * 160 * 0.1 = 1920 > 0` pixels. -/
theorem facesAt_cfgW_pos (world : World) (pose : PanTiltState)
    (h : facesAt cfgW world pose ≠ []) :
    ∃ r, (facesAt cfgW world pose).head? = some r ∧ 0 < r.area := by
  rcases hfw : facesAt cfgW world pose with _ | ⟨r, rest⟩
  · exact absurd hfw h
  · refine ⟨r, rfl, ?_⟩
    have hmem : r ∈ facesAt cfgW world pose := by
      rw [hfw]
      exact List.mem_cons_self _ _
    have h2 := (mem_find_faces _ _ _ _ _ r hmem).2
    rw [smallH_cfgW, smallW_cfgW] at h2
    push_neg at h2
    have h3 : (1920 : ℚ) ≤ (r.area : ℚ) := by
      refine le_trans (le_of_eq ?_) h2
      norm_num [MIN_AREA_FRAC]
    have h4 : (1920 : ℕ) ≤ r.area := by exact_mod_cast h3
    omega

/-- Waypoints at which no face is detected leave the scan accumulator
untouched, whatever the rest of the world looks like. -/
theorem foldl_accStep_of_no_detection (cfg : TrackerCfg) (srv : ServoCfg)
    (world : World) (l : List (ℤ × ℤ))
    (h : ∀ wp ∈ l, facesAt cfg world (wpPose srv wp) = []) :
    ∀ acc : ScanAcc, l.foldl (accStep cfg srv world) acc = acc := by
  induction l with
  | nil => intro acc; rfl
  | cons wp l ih =>
      intro acc
      have hstep : accStep cfg srv world acc wp = acc := by
        simp only [accStep, h wp (List.mem_cons_self _ _), List.head?_nil]
      rw [List.foldl_cons, hstep]
      exact ih (fun w hw => h w (List.mem_cons_of_mem _ hw)) acc

/-- If no grid waypoint yields a detection — faces elsewhere in the
world, or rectangles rejected by the filters, included — the scan
records nothing. -/
theorem scanGrid_acc_of_no_grid_detection (cfg : TrackerCfg) (srv : ServoCfg)
    (world : World) (pt0 : PanTiltState)
    (h : ∀ wp ∈ waypointsFlat, facesAt cfg world (wpPose srv wp) = []) :
    (scanGrid cfg srv world pt0).acc = ⟨0, none, (0, 0)⟩ := by
  rw [scanGrid_acc]
  exact foldl_accStep_of_no_detection cfg srv world waypointsFlat h _

/-- A world with no faces anywhere leaves the scan accumulator untouched. -/
theorem scanGrid_acc_of_world_nil (cfg : TrackerCfg) (srv : ServoCfg)
    (world : World) (h : ∀ q, world q = []) (pt0 : PanTiltState) :
    (scanGrid cfg srv world pt0).acc = ⟨0, none, (0, 0)⟩ :=
  scanGrid_acc_of_no_grid_detection cfg srv world pt0
    (fun _ _ => facesAt_of_world_nil cfg world h _)

/-! ### Helper lemmas: the run-loop iteration -/

theorem centre_mode (cfg : TrackerCfg) (srv : ServoCfg) (s : TrackerState)
    (cx cy : ℚ) : (centre cfg srv s cx cy).1.mode = s.mode := by
  unfold centre
  dsimp only
  split_ifs <;> rfl

theorem runIter_no_face_recent (cfg : TrackerCfg) (srv : ServoCfg)
    (world : World) (s : TrackerState) (now : ℚ)
    (hff : facesAt cfg world s.pt = [])
    (ht : now - s.last_face_time ≤ TIMEOUT_NO_FACE) :
    runIter cfg srv world s now = (s, []) := by
  unfold runIter
  dsimp only
  rw [hff]
  simp only [List.head?_nil]
  rw [if_neg (not_lt.mpr ht)]

theorem runIter_no_face_timeout (cfg : TrackerCfg) (srv : ServoCfg)
    (world : World) (s : TrackerState) (now : ℚ)
    (hff : facesAt cfg world s.pt = [])
    (ht : now - s.last_face_time > TIMEOUT_NO_FACE) :
    runIter cfg srv world s now = initial_scan cfg srv world s now := by
  unfold runIter
  dsimp only
  rw [hff]
  simp only [List.head?_nil]
  rw [if_pos ht]

theorem runIter_face_mode (cfg : TrackerCfg) (srv : ServoCfg)
    (world : World) (s : TrackerState) (now : ℚ)
    (hne : facesAt cfg world s.pt ≠ []) :
    (runIter cfg srv world s now).1.mode = s.mode ∧
      (runIter cfg srv world s now).1.last_face_time = now := by
  unfold runIter
  dsimp only
  rcases hfw : facesAt cfg world s.pt with _ | ⟨r, rest⟩
  · exact absurd hfw hne
  · simp only [List.head?_cons]
    exact ⟨centre_mode cfg srv s _ _, trivial⟩

/-! ### Claim C1 -/

/-- C1: if the pixel offsets `dx = cx - w/2` and `dy = cy - h/2` satisfy
`|dx| < dead_x` and `|dy| < dead_y`, then `_centre` issues no actuator
command and leaves the tracker state (in particular the current pan and
tilt angles) unchanged. -/
theorem C1_dead_zone_no_command (cfg : TrackerCfg) (srv : ServoCfg)
    (s : TrackerState) (cx cy : ℚ)
    (hdx : |cx - (cfg.w : ℚ) / 2| < s.dead_x)
    (hdy : |cy - (cfg.h : ℚ) / 2| < s.dead_y) :
    centre cfg srv s cx cy = (s, []) := by
  unfold centre
  rw [if_pos ⟨hdx, hdy⟩]

/-- Witness for C1 at a concrete input: frame 320×240, dead zone ±40,
face center (161, 121). -/
theorem C1_dead_zone_no_command_witness :
    |(161 : ℚ) - (320 : ℕ) / 2| < (40 : ℚ) ∧ |(121 : ℚ) - (240 : ℕ) / 2| < (40 : ℚ) ∧
      centre ⟨320, 240, 1/10, 1/10⟩ defaultServo
        ⟨⟨90, 110⟩, 40, 40, Mode.TRACK, 0⟩ 161 121 =
        (⟨⟨90, 110⟩, 40, 40, Mode.TRACK, 0⟩, []) :=
  ⟨by norm_num, by norm_num,
    C1_dead_zone_no_command ⟨320, 240, 1/10, 1/10⟩ defaultServo
      ⟨⟨90, 110⟩, 40, 40, Mode.TRACK, 0⟩ 161 121 (by norm_num) (by norm_num)⟩

/-! ### Claim C2 -/

/-- C2: on every centering step, the change in the commanded angle on
each axis is bounded by that axis's per-frame maximum delta
(`MAX_PAN_DELTA` for pan, `MAX_TILT_DELTA` for tilt), regardless of the
raw pixel offset, provided the current angles are within the servo's
configured ranges (which the servo invariant guarantees). -/
theorem C2_slew_rate_limit (cfg : TrackerCfg) (srv : ServoCfg)
    (s : TrackerState) (cx cy : ℚ)
    (hp1 : srv.pan_min ≤ s.pt.pan) (hp2 : s.pt.pan ≤ srv.pan_max)
    (ht1 : srv.tilt_min ≤ s.pt.tilt) (ht2 : s.pt.tilt ≤ srv.tilt_max) :
    |(centre cfg srv s cx cy).1.pt.pan - s.pt.pan| ≤ MAX_PAN_DELTA ∧
      |(centre cfg srv s cx cy).1.pt.tilt - s.pt.tilt| ≤ MAX_TILT_DELTA := by
  unfold centre
  dsimp only
  split_ifs with h
  · simp [MAX_PAN_DELTA, MAX_TILT_DELTA]
  · simp only [set_pan, set_tilt]
    constructor
    · exact le_trans (abs_clamp_sub_le hp1 hp2)
        (abs_clamp_delta_sub_le (by norm_num [MAX_PAN_DELTA]))
    · exact le_trans (abs_clamp_sub_le ht1 ht2)
        (abs_clamp_delta_sub_le (by norm_num [MAX_TILT_DELTA]))

/-- Witness for C2: a face far off-center (offset 150 px) still moves the
pan by at most 1° and the tilt by at most 0.5° in one frame. -/
theorem C2_slew_rate_limit_witness :
    (30 : ℚ) ≤ 90 ∧ (90 : ℚ) ≤ 150 ∧ (70 : ℚ) ≤ 110 ∧ (110 : ℚ) ≤ 150 ∧
      (|(centre ⟨320, 240, 1/10, 1/10⟩ defaultServo
          ⟨⟨90, 110⟩, 40, 40, Mode.TRACK, 0⟩ 310 230).1.pt.pan - 90| ≤ MAX_PAN_DELTA ∧
        |(centre ⟨320, 240, 1/10, 1/10⟩ defaultServo
          ⟨⟨90, 110⟩, 40, 40, Mode.TRACK, 0⟩ 310 230).1.pt.tilt - 110| ≤ MAX_TILT_DELTA) :=
  ⟨by norm_num, by norm_num, by norm_num, by norm_num,
    C2_slew_rate_limit ⟨320, 240, 1/10, 1/10⟩ defaultServo
      ⟨⟨90, 110⟩, 40, 40, Mode.TRACK, 0⟩ 310 230
      (by norm_num [defaultServo]) (by norm_num [defaultServo])
      (by norm_num [defaultServo]) (by norm_num [defaultServo])⟩

/-! ### Claim C3 -/

theorem applyOp_inRange (c : ServoCfg) (h1 : c.pan_min ≤ c.pan_max)
    (h2 : c.tilt_min ≤ c.tilt_max) (s : PanTiltState) (op : ServoOp)
    (hs : InRange c s) : InRange c (applyOp c s op) := by
  rcases hs with ⟨ha, hb, hc, hd⟩
  cases op with
  | setPanOp a =>
    rcases clamp_mem_of_le (x := a) h1 with ⟨hlo, hhi⟩
    exact ⟨hlo, hhi, hc, hd⟩
  | setTiltOp a =>
    rcases clamp_mem_of_le (x := a) h2 with ⟨hlo, hhi⟩
    exact ⟨ha, hb, hlo, hhi⟩

theorem applyOps_inRange (c : ServoCfg) (h1 : c.pan_min ≤ c.pan_max)
    (h2 : c.tilt_min ≤ c.tilt_max) (ops : List ServoOp) (s : PanTiltState)
    (hs : InRange c s) : InRange c (applyOps c ops s) := by
  induction ops generalizing s with
  | nil => exact hs
  | cons op rest ih => exact ih _ (applyOp_inRange c h1 h2 s op hs)

/-- C3: the commanded angles always lie within the configured per-axis
ranges: the initial angles (centered) are in range, and after any
sequence of `set_pan`/`set_tilt` writes — each of which clamps its
argument before storing it — the stored current angles still satisfy the
range invariant. -/
theorem C3_angles_in_range (c : ServoCfg)
    (h1 : c.pan_min ≤ c.pan_max) (h2 : c.tilt_min ≤ c.tilt_max)
    (ops : List ServoOp) :
    InRange c (initPanTilt c) ∧ InRange c (applyOps c ops (initPanTilt c)) := by
  have hinit : InRange c (initPanTilt c) := by
    refine ⟨?_, ?_, ?_, ?_⟩ <;> simp only [initPanTilt] <;> linarith
  exact ⟨hinit, applyOps_inRange c h1 h2 ops _ hinit⟩

/-- Witness for C3: with the default ranges, after writing the wildly
out-of-range angles 999 and -5 the stored angles are still in range. -/
theorem C3_angles_in_range_witness :
    defaultServo.pan_min ≤ defaultServo.pan_max ∧
      defaultServo.tilt_min ≤ defaultServo.tilt_max ∧
      (InRange defaultServo (initPanTilt defaultServo) ∧
        InRange defaultServo
          (applyOps defaultServo [ServoOp.setPanOp 999, ServoOp.setTiltOp (-5)]
            (initPanTilt defaultServo))) :=
  ⟨by norm_num [defaultServo], by norm_num [defaultServo],
    C3_angles_in_range defaultServo (by norm_num [defaultServo])
      (by norm_num [defaultServo]) [ServoOp.setPanOp 999, ServoOp.setTiltOp (-5)]⟩

/-! ### Claim C8 -/

/-- C8: outside the dead zone, the pre-clamp target on each axis is the
exponential smoothing of the current angle toward the goal angle,
`smoothed = current + alpha * (goal - current)` with
`goal_pan = current_pan - dx * deg_px_x` and
`goal_tilt = current_tilt - dy * deg_px_y`; equivalently, the pre-clamp
change on each axis is `-alpha * offset * (deg/px)`. -/
theorem C8_smoothing_toward_goal (cfg : TrackerCfg) (srv : ServoCfg)
    (s : TrackerState) (cx cy : ℚ)
    (h : ¬(|cx - (cfg.w : ℚ) / 2| < s.dead_x ∧ |cy - (cfg.h : ℚ) / 2| < s.dead_y)) :
    (centre cfg srv s cx cy).2 =
        [Ev.cmdPan (clamp_delta s.pt.pan MAX_PAN_DELTA
            (smooth_pan cfg s.pt.pan (cx - (cfg.w : ℚ) / 2))),
          Ev.cmdTilt (clamp_delta s.pt.tilt MAX_TILT_DELTA
            (smooth_tilt cfg s.pt.tilt (cy - (cfg.h : ℚ) / 2)))] ∧
      smooth_pan cfg s.pt.pan (cx - (cfg.w : ℚ) / 2) =
        s.pt.pan + ALPHA_PAN * (goal_pan cfg s.pt.pan (cx - (cfg.w : ℚ) / 2) - s.pt.pan) ∧
      smooth_tilt cfg s.pt.tilt (cy - (cfg.h : ℚ) / 2) =
        s.pt.tilt + ALPHA_TILT * (goal_tilt cfg s.pt.tilt (cy - (cfg.h : ℚ) / 2) - s.pt.tilt) ∧
      smooth_pan cfg s.pt.pan (cx - (cfg.w : ℚ) / 2) - s.pt.pan =
        -(ALPHA_PAN * ((cx - (cfg.w : ℚ) / 2) * cfg.deg_px_x)) ∧
      smooth_tilt cfg s.pt.tilt (cy - (cfg.h : ℚ) / 2) - s.pt.tilt =
        -(ALPHA_TILT * ((cy - (cfg.h : ℚ) / 2) * cfg.deg_px_y)) := by
  refine ⟨?_, rfl, rfl, ?_, ?_⟩
  · unfold centre
    dsimp only
    rw [if_neg h]
  · unfold smooth_pan goal_pan
    ring
  · unfold smooth_tilt goal_tilt
    ring

/-- Witness for C8 at a concrete off-center input (dx = -50, dy = 0). -/
theorem C8_smoothing_toward_goal_witness :
    ¬(|(110 : ℚ) - (320 : ℕ) / 2| < (40 : ℚ) ∧ |(120 : ℚ) - (240 : ℕ) / 2| < (40 : ℚ)) ∧
      ((centre ⟨320, 240, 1/10, 1/10⟩ defaultServo
          ⟨⟨90, 110⟩, 40, 40, Mode.TRACK, 0⟩ 110 120).2 =
          [Ev.cmdPan (clamp_delta 90 MAX_PAN_DELTA
              (smooth_pan ⟨320, 240, 1/10, 1/10⟩ 90 ((110 : ℚ) - (320 : ℕ) / 2))),
            Ev.cmdTilt (clamp_delta 110 MAX_TILT_DELTA
              (smooth_tilt ⟨320, 240, 1/10, 1/10⟩ 110 ((120 : ℚ) - (240 : ℕ) / 2)))] ∧
        smooth_pan ⟨320, 240, 1/10, 1/10⟩ 90 ((110 : ℚ) - (320 : ℕ) / 2) =
          90 + ALPHA_PAN * (goal_pan ⟨320, 240, 1/10, 1/10⟩ 90 ((110 : ℚ) - (320 : ℕ) / 2) - 90) ∧
        smooth_tilt ⟨320, 240, 1/10, 1/10⟩ 110 ((120 : ℚ) - (240 : ℕ) / 2) =
          110 + ALPHA_TILT * (goal_tilt ⟨320, 240, 1/10, 1/10⟩ 110 ((120 : ℚ) - (240 : ℕ) / 2) - 110) ∧
        smooth_pan ⟨320, 240, 1/10, 1/10⟩ 90 ((110 : ℚ) - (320 : ℕ) / 2) - 90 =
          -(ALPHA_PAN * (((110 : ℚ) - (320 : ℕ) / 2) * (1/10))) ∧
        smooth_tilt ⟨320, 240, 1/10, 1/10⟩ 110 ((120 : ℚ) - (240 : ℕ) / 2) - 110 =
          -(ALPHA_TILT * (((120 : ℚ) - (240 : ℕ) / 2) * (1/10)))) :=
  ⟨by norm_num,
    C8_smoothing_toward_goal ⟨320, 240, 1/10, 1/10⟩ defaultServo
      ⟨⟨90, 110⟩, 40, 40, Mode.TRACK, 0⟩ 110 120 (by norm_num)⟩

/-! ### Claim C10 -/

/-- C10: the dead-zone test is conjunctive over both axes — whenever at
least one axis's offset reaches its dead radius, `_centre` computes and
writes commands for both axes (a `set_pan` and a `set_tilt`), so the
smoothed correction is applied even on the axis whose own offset is
still inside its dead band. -/
theorem C10_both_axes_commanded (cfg : TrackerCfg) (srv : ServoCfg)
    (s : TrackerState) (cx cy : ℚ)
    (h : ¬(|cx - (cfg.w : ℚ) / 2| < s.dead_x ∧ |cy - (cfg.h : ℚ) / 2| < s.dead_y)) :
    centre cfg srv s cx cy =
      ({ s with pt := set_tilt srv (set_pan srv s.pt (clamp_delta s.pt.pan MAX_PAN_DELTA (smooth_pan cfg s.pt.pan (cx - (cfg.w : ℚ) / 2)))) (clamp_delta s.pt.tilt MAX_TILT_DELTA (smooth_tilt cfg s.pt.tilt (cy - (cfg.h : ℚ) / 2))) },
        [Ev.cmdPan (clamp_delta s.pt.pan MAX_PAN_DELTA
            (smooth_pan cfg s.pt.pan (cx - (cfg.w : ℚ) / 2))),
          Ev.cmdTilt (clamp_delta s.pt.tilt MAX_TILT_DELTA
            (smooth_tilt cfg s.pt.tilt (cy - (cfg.h : ℚ) / 2)))]) := by
  unfold centre
  dsimp only
  rw [if_neg h]

/-- Witness for C10: pan offset dx = 10 is inside its dead band but tilt
offset dy = 100 is outside, and a command is still written on both axes. -/
theorem C10_both_axes_commanded_witness :
    ¬(|(170 : ℚ) - (320 : ℕ) / 2| < (40 : ℚ) ∧ |(220 : ℚ) - (240 : ℕ) / 2| < (40 : ℚ)) ∧
      centre ⟨320, 240, 1/10, 1/10⟩ defaultServo
          ⟨⟨90, 110⟩, 40, 40, Mode.TRACK, 0⟩ 170 220 =
        ({ pt := set_tilt defaultServo (set_pan defaultServo ⟨90, 110⟩ (clamp_delta 90 MAX_PAN_DELTA (smooth_pan ⟨320, 240, 1/10, 1/10⟩ 90 ((170 : ℚ) - (320 : ℕ) / 2)))) (clamp_delta 110 MAX_TILT_DELTA (smooth_tilt ⟨320, 240, 1/10, 1/10⟩ 110 ((220 : ℚ) - (240 : ℕ) / 2))),
            dead_x := 40, dead_y := 40, mode := Mode.TRACK, last_face_time := 0 },
          [Ev.cmdPan (clamp_delta 90 MAX_PAN_DELTA
              (smooth_pan ⟨320, 240, 1/10, 1/10⟩ 90 ((170 : ℚ) - (320 : ℕ) / 2))),
            Ev.cmdTilt (clamp_delta 110 MAX_TILT_DELTA
              (smooth_tilt ⟨320, 240, 1/10, 1/10⟩ 110 ((220 : ℚ) - (240 : ℕ) / 2)))]) :=
  ⟨by norm_num,
    C10_both_axes_commanded ⟨320, 240, 1/10, 1/10⟩ defaultServo
      ⟨⟨90, 110⟩, 40, 40, Mode.TRACK, 0⟩ 170 220 (by norm_num)⟩

/-! ### Claim C4 -/

/-- C4 (counterexample): the claim asserts three distinct no-detection
modes HOLD, MICRO and SWEEP selected by `elapsed` against thresholds
MICRO_AFTER and FULL_AFTER.  The tracker's `Mode` type has only the two
values INIT and TRACK — no three pairwise-distinct modes exist — and a
no-detection iteration with arbitrarily large `elapsed` (here 1000 s)
leaves the controller in TRACK, not in any sweep mode. -/
theorem C4_counterexample_no_hold_micro_sweep :
    (¬∃ mh mm ms : Mode, mh ≠ mm ∧ mm ≠ ms ∧ mh ≠ ms) ∧
      (runIter cfgW defaultServo worldEmpty
        ⟨⟨90, 110⟩, 40, 40, Mode.TRACK, 0⟩ 1000).1.mode = Mode.TRACK := by
  constructor
  · rintro ⟨mh, mm, ms, h1, h2, h3⟩
    cases mh <;> cases mm <;> cases ms <;> simp_all
  · have hff : facesAt cfgW worldEmpty
        (⟨⟨90, 110⟩, 40, 40, Mode.TRACK, 0⟩ : TrackerState).pt = [] :=
      facesAt_of_world_nil cfgW worldEmpty (fun _ => rfl) _
    have ht : (1000 : ℚ) -
        (⟨⟨90, 110⟩, 40, 40, Mode.TRACK, 0⟩ : TrackerState).last_face_time >
          TIMEOUT_NO_FACE := by
      norm_num [TIMEOUT_NO_FACE]
    rw [runIter_no_face_timeout cfgW defaultServo worldEmpty _ 1000 hff ht]
    exact (initial_scan_always_track cfgW defaultServo worldEmpty _ 1000).1

/-- C4 (amended): the code has no HOLD/MICRO/SWEEP modes and a single
timeout.  When no detection is accepted, behaviour is determined solely
by `elapsed = now - last_face_time`: while `elapsed ≤ TIMEOUT_NO_FACE`
the iteration changes nothing and issues no command; once
`elapsed > TIMEOUT_NO_FACE` it re-runs the full initial grid scan,
ending in TRACK with `last_face_time` refreshed; and an accepted
detection is handled by the centering step in mode TRACK in the same
iteration, refreshing `last_face_time`. -/
theorem C4_two_mode_behaviour (cfg : TrackerCfg) (srv : ServoCfg)
    (world : World) (s : TrackerState) (now : ℚ)
    (hmode : s.mode = Mode.TRACK) :
    (facesAt cfg world s.pt = [] → now - s.last_face_time ≤ TIMEOUT_NO_FACE →
        runIter cfg srv world s now = (s, [])) ∧
      (facesAt cfg world s.pt = [] → now - s.last_face_time > TIMEOUT_NO_FACE →
        runIter cfg srv world s now = initial_scan cfg srv world s now ∧
          (runIter cfg srv world s now).1.mode = Mode.TRACK ∧
          (runIter cfg srv world s now).1.last_face_time = now) ∧
      (facesAt cfg world s.pt ≠ [] →
        (runIter cfg srv world s now).1.mode = Mode.TRACK ∧
          (runIter cfg srv world s now).1.last_face_time = now) := by
  refine ⟨fun hff ht => runIter_no_face_recent cfg srv world s now hff ht,
    fun hff ht => ?_, fun hne => ?_⟩
  · have he := runIter_no_face_timeout cfg srv world s now hff ht
    refine ⟨he, ?_, ?_⟩
    · rw [he]
      exact (initial_scan_always_track cfg srv world s now).1
    · rw [he]
      exact (initial_scan_always_track cfg srv world s now).2
  · obtain ⟨h1, h2⟩ := runIter_face_mode cfg srv world s now hne
    exact ⟨h1.trans hmode, h2⟩

/-- Witness for the amended C4 at a concrete tracking state. -/
theorem C4_two_mode_behaviour_witness :
    ((⟨⟨90, 110⟩, 40, 40, Mode.TRACK, 0⟩ : TrackerState).mode = Mode.TRACK) ∧
      ((facesAt cfgW worldEmpty (⟨⟨90, 110⟩, 40, 40, Mode.TRACK, 0⟩ : TrackerState).pt = [] →
          (10 : ℚ) - (⟨⟨90, 110⟩, 40, 40, Mode.TRACK, 0⟩ : TrackerState).last_face_time ≤ TIMEOUT_NO_FACE →
          runIter cfgW defaultServo worldEmpty ⟨⟨90, 110⟩, 40, 40, Mode.TRACK, 0⟩ 10 =
            (⟨⟨90, 110⟩, 40, 40, Mode.TRACK, 0⟩, [])) ∧
        (facesAt cfgW worldEmpty (⟨⟨90, 110⟩, 40, 40, Mode.TRACK, 0⟩ : TrackerState).pt = [] →
          (10 : ℚ) - (⟨⟨90, 110⟩, 40, 40, Mode.TRACK, 0⟩ : TrackerState).last_face_time > TIMEOUT_NO_FACE →
          runIter cfgW defaultServo worldEmpty ⟨⟨90, 110⟩, 40, 40, Mode.TRACK, 0⟩ 10 =
            initial_scan cfgW defaultServo worldEmpty ⟨⟨90, 110⟩, 40, 40, Mode.TRACK, 0⟩ 10 ∧
            (runIter cfgW defaultServo worldEmpty ⟨⟨90, 110⟩, 40, 40, Mode.TRACK, 0⟩ 10).1.mode = Mode.TRACK ∧
            (runIter cfgW defaultServo worldEmpty ⟨⟨90, 110⟩, 40, 40, Mode.TRACK, 0⟩ 10).1.last_face_time = 10) ∧
        (facesAt cfgW worldEmpty (⟨⟨90, 110⟩, 40, 40, Mode.TRACK, 0⟩ : TrackerState).pt ≠ [] →
          (runIter cfgW defaultServo worldEmpty ⟨⟨90, 110⟩, 40, 40, Mode.TRACK, 0⟩ 10).1.mode = Mode.TRACK ∧
            (runIter cfgW defaultServo worldEmpty ⟨⟨90, 110⟩, 40, 40, Mode.TRACK, 0⟩ 10).1.last_face_time = 10)) :=
  ⟨rfl, C4_two_mode_behaviour cfgW defaultServo worldEmpty
    ⟨⟨90, 110⟩, 40, 40, Mode.TRACK, 0⟩ 10 rfl⟩

/-! ### Claim C5 -/

theorem facesAt_head?_max (cfg : TrackerCfg) (world : World)
    (pose : PanTiltState) (r : Rect)
    (hr : (facesAt cfg world pose).head? = some r) :
    ∀ r' ∈ facesAt cfg world pose, r'.area ≤ r.area := by
  unfold facesAt at hr ⊢
  exact find_faces_head?_max _ _ _ _ _ r hr

theorem hne_to_scanArea (world : World)
    (hne : ∃ wp ∈ waypointsFlat, facesAt cfgW world (wpPose defaultServo wp) ≠ []) :
    ∃ wp ∈ waypointsFlat, scanArea cfgW defaultServo world wp ≠ 0 := by
  obtain ⟨wp, hwp, hfne⟩ := hne
  obtain ⟨r1, hr1, hr1pos⟩ := facesAt_cfgW_pos world _ hfne
  refine ⟨wp, hwp, ?_⟩
  have hs : scanArea cfgW defaultServo world wp = r1.area := by
    unfold scanArea
    rw [hr1]
  omega

/-- C5: if at least one grid waypoint yields a detection, the initial
scan commands the actuator to the waypoint whose largest detected face
has the maximum pixel area over all sampled waypoints, and ties on that
maximum resolve to the first such waypoint in scan order (every waypoint
strictly before it has strictly smaller area). -/
theorem C5_scan_selects_first_max (world : World) (s : TrackerState) (now : ℚ)
    (hne : ∃ wp ∈ waypointsFlat, facesAt cfgW world (wpPose defaultServo wp) ≠ []) :
    ∃ l₁ wp₀ l₂ r,
      waypointsFlat = l₁ ++ wp₀ :: l₂ ∧
      (facesAt cfgW world (wpPose defaultServo wp₀)).head? = some r ∧
      (∀ r' ∈ facesAt cfgW world (wpPose defaultServo wp₀), r'.area ≤ r.area) ∧
      (∀ wp ∈ waypointsFlat, scanArea cfgW defaultServo world wp ≤ r.area) ∧
      (∀ wp ∈ l₁, scanArea cfgW defaultServo world wp < r.area) ∧
      (initial_scan cfgW defaultServo world s now).1.pt = ⟨(wp₀.1 : ℚ), (wp₀.2 : ℚ)⟩ := by
  obtain ⟨l₁, wp₀, l₂, r, heq, hhd, hrpos, hmax, hfirst, hpt, _, _⟩ :=
    scan_found_spec cfgW defaultServo world s now (hne_to_scanArea world hne)
  have hwp₀mem : wp₀ ∈ waypointsFlat := by
    rw [heq]
    exact List.mem_append_right _ (List.mem_cons_self _ _)
  refine ⟨l₁, wp₀, l₂, r, heq, hhd, facesAt_head?_max cfgW world _ r hhd, hmax, hfirst, ?_⟩
  rw [hpt, waypointsFlat_pose wp₀ hwp₀mem]

/-- The single test face of `worldOne` passes the detector's filters. -/
theorem worldOne_detected :
    facesAt cfgW worldOne ⟨30, 150⟩ ≠ [] := by
  have hmem : (⟨0, 0, 50, 50⟩ : Rect) ∈ facesAt cfgW worldOne ⟨30, 150⟩ := by
    unfold facesAt worldOne
    rw [smallH_cfgW, smallW_cfgW]
    dsimp only
    rw [if_pos rfl]
    unfold find_faces
    rw [if_neg (by simp)]
    dsimp only
    rw [(List.mergeSort_perm _ _).mem_iff, List.mem_filter]
    refine ⟨List.mem_cons_self _ _, ?_⟩
    simp only [Bool.and_eq_true, Bool.not_eq_true', decide_eq_false_iff_not,
      decide_eq_true_eq]
    refine ⟨?_, ?_, ?_⟩ <;> norm_num [Rect.area, MIN_AREA_FRAC, ASPECT_TOL]
  exact List.ne_nil_of_mem hmem

/-- Witness for C5: a world whose only face (50×50) is visible at
waypoint (30, 150). -/
theorem C5_scan_selects_first_max_witness :
    (∃ wp ∈ waypointsFlat, facesAt cfgW worldOne (wpPose defaultServo wp) ≠ []) ∧
      (∃ l₁ wp₀ l₂ r,
        waypointsFlat = l₁ ++ wp₀ :: l₂ ∧
        (facesAt cfgW worldOne (wpPose defaultServo wp₀)).head? = some r ∧
        (∀ r' ∈ facesAt cfgW worldOne (wpPose defaultServo wp₀), r'.area ≤ r.area) ∧
        (∀ wp ∈ waypointsFlat, scanArea cfgW defaultServo worldOne wp ≤ r.area) ∧
        (∀ wp ∈ l₁, scanArea cfgW defaultServo worldOne wp < r.area) ∧
        (initial_scan cfgW defaultServo worldOne
          ⟨⟨90, 110⟩, 40, 40, Mode.INIT, 0⟩ 3).1.pt = ⟨(wp₀.1 : ℚ), (wp₀.2 : ℚ)⟩) := by
  have hpose : wpPose defaultServo ((30 : ℤ), (150 : ℤ)) = ⟨(30 : ℚ), (150 : ℚ)⟩ := by
    decide
  have hne : ∃ wp ∈ waypointsFlat, facesAt cfgW worldOne (wpPose defaultServo wp) ≠ [] := by
    refine ⟨((30 : ℤ), (150 : ℤ)), by decide, ?_⟩
    rw [hpose]
    exact worldOne_detected
  exact ⟨hne, C5_scan_selects_first_max worldOne ⟨⟨90, 110⟩, 40, 40, Mode.INIT, 0⟩ 3 hne⟩

/-! ### Claim C6 -/

/-- C6 (counterexample): when the scan grid is exhausted with no
detection the controller transitions to TRACK, and the `Mode` type has
no third value that a SWEEP mode could be — so the claimed transition to
SWEEP is impossible. -/
theorem C6_counterexample_no_sweep :
    (initial_scan cfgW defaultServo worldEmpty
        ⟨⟨90, 110⟩, 40, 40, Mode.INIT, 0⟩ 5).1.mode = Mode.TRACK ∧
      ¬∃ m : Mode, m ≠ Mode.INIT ∧ m ≠ Mode.TRACK := by
  constructor
  · have hang : (scanGrid cfgW defaultServo worldEmpty
        (⟨⟨90, 110⟩, 40, 40, Mode.INIT, 0⟩ : TrackerState).pt).acc.best_ang = none := by
      rw [scanGrid_acc_of_world_nil cfgW defaultServo worldEmpty (fun _ => rfl)]
    rw [initial_scan_none cfgW defaultServo worldEmpty _ 5 hang]
  · rintro ⟨m, h1, h2⟩
    cases m
    · exact h1 rfl
    · exact h2 rfl

/-- C6 (amended): if the initial scan exhausts its whole grid without
any detection — no waypoint it visits yields an accepted face, whether
because no face is in view there or because every candidate fails the
filters — the controller transitions to TRACK (there is no SWEEP mode),
refreshing `last_face_time` and leaving the dead-zone at its previous
value; the run loop then re-runs the scan after TIMEOUT_NO_FACE, so it
does not block forever. -/
theorem C6_no_detection_goes_to_track (cfg : TrackerCfg) (srv : ServoCfg)
    (world : World) (s : TrackerState) (now : ℚ)
    (h : ∀ wp ∈ waypointsFlat, facesAt cfg world (wpPose srv wp) = []) :
    (initial_scan cfg srv world s now).1.mode = Mode.TRACK ∧
      (initial_scan cfg srv world s now).1.dead_x = s.dead_x ∧
      (initial_scan cfg srv world s now).1.dead_y = s.dead_y ∧
      (initial_scan cfg srv world s now).1.last_face_time = now := by
  have hang : (scanGrid cfg srv world s.pt).acc.best_ang = none := by
    rw [scanGrid_acc_of_no_grid_detection cfg srv world s.pt h]
  rw [initial_scan_none cfg srv world s now hang]
  exact ⟨rfl, rfl, rfl, rfl⟩

/-- Witness for the amended C6 at the empty world. -/
theorem C6_no_detection_goes_to_track_witness :
    (∀ wp ∈ waypointsFlat, facesAt cfgW worldEmpty (wpPose defaultServo wp) = []) ∧
      ((initial_scan cfgW defaultServo worldEmpty
          ⟨⟨90, 110⟩, 40, 40, Mode.INIT, 7⟩ 9).1.mode = Mode.TRACK ∧
        (initial_scan cfgW defaultServo worldEmpty
          ⟨⟨90, 110⟩, 40, 40, Mode.INIT, 7⟩ 9).1.dead_x = (40 : ℚ) ∧
        (initial_scan cfgW defaultServo worldEmpty
          ⟨⟨90, 110⟩, 40, 40, Mode.INIT, 7⟩ 9).1.dead_y = (40 : ℚ) ∧
        (initial_scan cfgW defaultServo worldEmpty
          ⟨⟨90, 110⟩, 40, 40, Mode.INIT, 7⟩ 9).1.last_face_time = 9) :=
  ⟨fun _ _ => facesAt_of_world_nil cfgW worldEmpty (fun _ => rfl) _,
    C6_no_detection_goes_to_track cfgW defaultServo worldEmpty
      ⟨⟨90, 110⟩, 40, 40, Mode.INIT, 7⟩ 9
      (fun _ _ => facesAt_of_world_nil cfgW worldEmpty (fun _ => rfl) _)⟩

/-! ### Claim C7 -/

/-- C7: after a successful initial scan, the dead-zone half-extents are
exactly half the rescaled width and height of the best detection: with
the best face's scaled size `(w, h)`, the stored `dead_x` equals
`(w / SCALE) / 2` and `dead_y` equals `(h / SCALE) / 2` (the integer
truncations in the code lose nothing because `w / SCALE = 2w` is even). -/
theorem C7_dead_zone_is_half_rescaled (world : World) (s : TrackerState) (now : ℚ)
    (hne : ∃ wp ∈ waypointsFlat, facesAt cfgW world (wpPose defaultServo wp) ≠ []) :
    ∃ wp₀ r,
      (facesAt cfgW world (wpPose defaultServo wp₀)).head? = some r ∧
      (∀ wp ∈ waypointsFlat, scanArea cfgW defaultServo world wp ≤ r.area) ∧
      (initial_scan cfgW defaultServo world s now).1.dead_x = ((r.w : ℚ) / SCALE) / 2 ∧
      (initial_scan cfgW defaultServo world s now).1.dead_y = ((r.h : ℚ) / SCALE) / 2 := by
  obtain ⟨l₁, wp₀, l₂, r, heq, hhd, hrpos, hmax, hfirst, hpt, hdx, hdy⟩ :=
    scan_found_spec cfgW defaultServo world s now (hne_to_scanArea world hne)
  have hwdiv : ∀ v : ℕ, ((rescale v / 2 : ℕ) : ℚ) = ((v : ℚ) / SCALE) / 2 := by
    intro v
    have h1 : (rescale v / 2 : ℕ) = v := by
      rw [rescale_eq]
      omega
    rw [h1]
    unfold SCALE
    ring
  exact ⟨wp₀, r, hhd, hmax, by rw [hdx, hwdiv], by rw [hdy, hwdiv]⟩

/-- Witness for C7 with the single-face world. -/
theorem C7_dead_zone_is_half_rescaled_witness :
    (∃ wp ∈ waypointsFlat, facesAt cfgW worldOne (wpPose defaultServo wp) ≠ []) ∧
      (∃ wp₀ r,
        (facesAt cfgW worldOne (wpPose defaultServo wp₀)).head? = some r ∧
        (∀ wp ∈ waypointsFlat, scanArea cfgW defaultServo worldOne wp ≤ r.area) ∧
        (initial_scan cfgW defaultServo worldOne
          ⟨⟨90, 110⟩, 40, 40, Mode.INIT, 0⟩ 4).1.dead_x = ((r.w : ℚ) / SCALE) / 2 ∧
        (initial_scan cfgW defaultServo worldOne
          ⟨⟨90, 110⟩, 40, 40, Mode.INIT, 0⟩ 4).1.dead_y = ((r.h : ℚ) / SCALE) / 2) := by
  have hpose : wpPose defaultServo ((30 : ℤ), (150 : ℤ)) = ⟨(30 : ℚ), (150 : ℚ)⟩ := by
    decide
  have hne : ∃ wp ∈ waypointsFlat, facesAt cfgW worldOne (wpPose defaultServo wp) ≠ [] := by
    refine ⟨((30 : ℤ), (150 : ℤ)), by decide, ?_⟩
    rw [hpose]
    exact worldOne_detected
  exact ⟨hne, C7_dead_zone_is_half_rescaled worldOne ⟨⟨90, 110⟩, 40, 40, Mode.INIT, 0⟩ 4 hne⟩

/-! ### Claim C9 -/

/-- C9 (counterexample): the claim says the scan iterates tilt from the
tilt axis's maximum down to its minimum.  The tilt axis minimum is 70,
but the scan's tilt loop `range(150, 99, -10)` stops at 100 and never
visits 70 (or anything below 100). -/
theorem C9_counterexample_tilt_stops_above_min :
    defaultServo.tilt_min = 70 ∧ scanTilts = [150, 140, 130, 120, 110, 100] ∧
      (70 : ℤ) ∉ scanTilts := by
  refine ⟨rfl, by decide, by decide⟩

/-- C9 (amended): the initial scan iterates tilt from the tilt axis's
maximum 150 down to 100 — not down to the axis minimum 70 — in
decrements of INIT_TILT_STEP = 10, and for each tilt iterates pan from
the pan axis's minimum 30 to its maximum 150 in steps of
INIT_PAN_STEP = 15, commanding the actuator and running one detection at
each (pan, tilt) waypoint, as witnessed by the emitted event trace. -/
theorem C9_actual_scan_order (cfg : TrackerCfg) (srv : ServoCfg)
    (world : World) (s : TrackerState) (now : ℚ) :
    scanTilts = [150, 140, 130, 120, 110, 100] ∧
      scanPans = [30, 45, 60, 75, 90, 105, 120, 135, 150] ∧
      defaultServo.tilt_max = 150 ∧ defaultServo.tilt_min = 70 ∧
      defaultServo.pan_min = 30 ∧ defaultServo.pan_max = 150 ∧
      ∃ rest, (initial_scan cfg srv world s now).2 =
        (scanTilts.flatMap fun t =>
          Ev.cmdTilt (t : ℚ) :: scanPans.flatMap fun p => [Ev.cmdPan (p : ℚ), Ev.det]) ++ rest := by
  refine ⟨by decide, by decide, rfl, rfl, rfl, rfl, ?_⟩
  rcases hang : (scanGrid cfg srv world s.pt).acc.best_ang with _ | wp₀
  · refine ⟨[], ?_⟩
    rw [initial_scan_none cfg srv world s now hang]
    simp [scanGrid_trace]
  · refine ⟨[Ev.cmdPan (wp₀.1 : ℚ), Ev.cmdTilt (wp₀.2 : ℚ)], ?_⟩
    rw [initial_scan_found cfg srv world s now wp₀ hang]
    simp [scanGrid_trace]

end DesktopSitter
